import Mathlib

/-!
# Verification of receptor's node startup and websocket backend code

Shallow embedding of `cmd/receptor.go` (node configuration, startup grace
window) and `pkg/backends/websockets.go` (websocket dialer/listener backends
and their sessions) from the `receptor` repository, together with proofs of
the specification claims about them.

Conventions:
* Go strings are Lean `String`s; byte-level operations (`strings.Contains`,
  `strings.SplitN`) are modelled on the underlying character list (all
  separators involved are ASCII, where the two views agree).
* `float64` costs are modelled as `ℚ`: the only operations performed on them
  are order comparisons against `0`, on which rationals agree with every
  non-NaN float (a NaN cost compares `false` to `<= 0.0` in Go and a NaN has
  no preimage here; no claim concerns NaN).
* Results of calls outside this repository's sources (os.Hostname, url.Parse,
  websocket dialing, workceptor/controlsvc construction) are passed in as
  explicit parameters, so every theorem quantifies over their outcomes.
* Go `panic`s (close of closed channel, nil dereference, index out of range)
  are modelled as explicit outcome constructors, so "does not panic" is a
  provable statement about the embedding.
-/

deriving instance DecidableEq for Except

/-! ## Embedding of the Go string operations used by the sources -/

/-- Model of `strings.Contains(s, c)` for a single-character separator, on
the character list underlying the string. -/
def goContains (s : String) (c : Char) : Bool :=
  s.data.contains c

/-- Model of `strings.SplitN(s, sep, 2)` for a single-character separator:
split at the first occurrence of `sep` only.  Returns one part when `sep`
does not occur, two parts otherwise (the Go function never returns an empty
slice for `n = 2`). -/
def goSplitN2 : List Char → Char → List (List Char)
  | [], _ => [[]]
  | x :: xs, c =>
    if x = c then [[], xs]
    else
      match goSplitN2 xs c with
      | [] => [[x]]
      | h :: t => (x :: h) :: t

/-- Model of `strings.Split(s, ",")`. -/
def goSplitComma (s : String) : List String :=
  s.splitOn ","

/-- Model of `strings.ToLower(s)`: lower-case every character
(`Char.toLower` agrees with Go's mapping on ASCII, which is all the sources
compare against). -/
def goToLower (s : String) : String :=
  ⟨s.data.map Char.toLower⟩

/-- Model of `strings.HasPrefix(s, p)`, as `goStartsWith s p`. -/
def goStartsWith (s : String) (p : String) : Bool :=
  p.data.isPrefixOf s.data

/-! ## Definitions for `cmd/receptor.go`: `nodeCfg` and `Init` (C1, C2) -/

/-- Embedding of the `nodeCfg` cmdline configuration struct. -/
structure nodeCfg where
  ID : String
  AllowedPeers : String
  DataDir : String
  deriving DecidableEq, Repr

/-- Observable outcome of `netceptor.New(ctx, cfg.ID, allowedPeers)`:
the node ID and allowed-peer list the netceptor instance is constructed
with. -/
structure NetceptorInstance where
  nodeID : String
  allowedPeers : List String
  deriving DecidableEq, Repr

/-- Embedding of `nodeCfg.Init` from `cmd/receptor.go`.

External effects are parameters:
* `hostRes` is the result of `os.Hostname()`;
* `extRes` is the combined result of `workceptor.New` and
  `RegisterWithControlService` (code outside `src/`), which run only after
  the netceptor instance has been assigned.

The result is the pair of the error returned by `Init` and the netceptor
instance assigned to `netceptor.MainInstance` (`none` when the function
returned before reaching `netceptor.New`).  `cfg` is a value receiver in Go,
so the assignment `cfg.ID = host` mutates only the local copy, which is the
copy consulted by the rest of the function body. -/
def nodeCfg.Init (cfg : nodeCfg) (hostRes : Except String String)
    (extRes : Except String Unit) :
    Except String Unit × Option NetceptorInstance :=
  match (if cfg.ID = "" then
          match hostRes with
          | .error e => .error e
          | .ok host =>
            let lchost := goToLower host
            if lchost = "localhost" ∨ goStartsWith lchost "localhost." then
              .error "no node ID specified and local host name is localhost"
            else
              .ok { cfg with ID := host }
        else
          .ok cfg : Except String nodeCfg) with
  | .error e => (.error e, none)
  | .ok cfg =>
    if goToLower cfg.ID = "localhost" then
      (.error "node ID \"localhost\" is reserved", none)
    else
      let allowedPeers :=
        if cfg.AllowedPeers ≠ "" then
          (goSplitComma cfg.AllowedPeers).map String.trim
        else []
      let inst : NetceptorInstance := { nodeID := cfg.ID, allowedPeers := allowedPeers }
      match extRes with
      | .error e => (.error e, some inst)
      | .ok _ => (.ok (), some inst)

/-! ## Definitions for the startup grace window in `main` (C3) -/

/-- Possible behaviours of `main` after launching the `BackendWait`
goroutine: it either exits immediately with a diagnostic or stays up waiting
on `NetceptorDone`. -/
inductive StartupOutcome where
  /-- `logger.Error("All backends have failed. Exiting.\n"); os.Exit(1)` -/
  | exitAllBackendsFailed
  /-- `logger.Warning("Nothing to do - no backends were specified.\n"); os.Exit(1)` -/
  | exitNothingToDo
  /-- `logger.Info("Initialization complete\n"); <-NetceptorDone()` -/
  | stayUpUntilNetceptorDone
  deriving DecidableEq, Repr

/-- Process exit code produced at the startup select, `none` when the
process stays up past it. -/
def StartupOutcome.exitCode : StartupOutcome → Option Nat
  | .exitAllBackendsFailed => some 1
  | .exitNothingToDo => some 1
  | .stayUpUntilNetceptorDone => none

/-- Grace window of the startup select, in milliseconds
(`time.After(100 * time.Millisecond)`). -/
def startupGraceMs : Nat := 100

/-- Embedding of the `select` at the end of `main` in `cmd/receptor.go`.

`backendDoneAtMs` is the instant (milliseconds after the select starts) at
which `BackendWait` returns and the goroutine closes `done`; `none` means
the backends are still running when the grace window elapses.
`backendCount` is `netceptor.MainInstance.BackendCount()`.  The `done`
branch is taken exactly when `done` is closed before the 100 ms timer
fires. -/
def mainStartupSelect (backendDoneAtMs : Option Nat) (backendCount : Nat) :
    StartupOutcome :=
  let doneFirst : Bool :=
    match backendDoneAtMs with
    | some t => decide (t < startupGraceMs)
    | none => false
  if doneFirst then
    if backendCount > 0 then .exitAllBackendsFailed
    else .exitNothingToDo
  else
    .stayUpUntilNetceptorDone

/-! ## Definitions for `WebsocketSession` (C4, C5)

The session wraps a `*websocket.Conn` plus a goroutine (`recvChannelizer`)
that reads frames and pushes `recvResult`s onto an unbuffered channel
`recvChan`.  The session state is modelled explicitly: `pending` is the
ordered queue of results the channelizer stands ready to deliver, and
scheduling nondeterminism (whether a result becomes ready before a `Recv`
timeout fires) is an explicit boolean input to `Recv`. -/

/-- Session-level error kinds: `netceptor.ErrTimeout`, the connection-closed
error family (`use of closed network connection` / close-sent), and other
transport errors. -/
inductive WsErr where
  | timeout
  | closed
  | transport (msg : String)
  deriving DecidableEq, Repr

/-- Embedding of the `recvResult` struct pushed onto `recvChan` by
`recvChannelizer`: a data frame together with the read error, if any. -/
structure recvResult where
  data : List Nat
  err : Option WsErr
  deriving DecidableEq, Repr

/-- State of the underlying `*websocket.Conn` (gorilla) that the session
operations consult: whether `Close` has been called on it. -/
structure GoConn where
  closed : Bool
  deriving DecidableEq, Repr

/-- Embedding of `WebsocketSession` from `pkg/backends/websockets.go`.
`closeChan` is `none` when the Go field is `nil`, `some b` when it holds a
channel with closed-flag `b`; `onceUsed` records whether
`closeChanCloser : sync.Once` has already run its body. -/
structure WebsocketSession where
  conn : GoConn
  pending : List recvResult
  closeChan : Option Bool
  onceUsed : Bool
  deriving DecidableEq, Repr

/-- Embedding of `newWebsocketSession(conn, closeChan)`: fresh receive
queue, `sync.Once` unused. -/
def newWebsocketSession (conn : GoConn) (closeChan : Option Bool) :
    WebsocketSession :=
  { conn := conn, pending := [], closeChan := closeChan, onceUsed := false }

/-- Go's `close(ch)`: marks the channel closed, and panics (`.error ()`)
when the channel is already closed or nil. -/
def goChanClose (ch : Option Bool) : Except Unit (Option Bool) :=
  match ch with
  | some false => .ok (some true)
  | _ => .error ()

/-- Model of `(*websocket.Conn).Close`: closes the underlying network
connection; a second close returns the use-of-closed-connection error. -/
def goConnClose (c : GoConn) : Option WsErr × GoConn :=
  if c.closed then (some .closed, c) else (none, { closed := true })

/-- Model of `(*websocket.Conn).WriteMessage`: fails with the
connection-closed error once the connection has been closed. -/
def goWriteMessage (c : GoConn) (_data : List Nat) : Option WsErr :=
  if c.closed then some .closed else none

/-- Embedding of `WebsocketSession.Send`: writes a binary message,
returning the write error if any. -/
def WebsocketSession.Send (ns : WebsocketSession) (data : List Nat) :
    Option WsErr :=
  goWriteMessage ns.conn data

/-- Embedding of `WebsocketSession.Recv(timeout)`: `select` between
`recvChan` and `time.After(timeout)`.  `frameReady` says whether the
channelizer managed to hand over a result before the timer fired; no result
can be ready when the queue is empty and the connection is still open, and
once the connection is closed the channelizer's `ReadMessage` yields the
connection-closed error as the next result.  Returns the Go pair
`(data, err)` plus the successor state. -/
def WebsocketSession.Recv (ns : WebsocketSession) (frameReady : Bool) :
    (Option (List Nat) × Option WsErr) × WebsocketSession :=
  match frameReady, ns.pending with
  | true, rr :: rest => ((some rr.data, rr.err), { ns with pending := rest })
  | true, [] =>
    if ns.conn.closed then ((none, some .closed), ns)
    else ((none, some .timeout), ns)
  | false, _ => ((none, some .timeout), ns)

/-- Arrival of a frame (or read error) later on: the channelizer appends it
to the ready queue. -/
def WebsocketSession.deliver (ns : WebsocketSession) (rr : recvResult) :
    WebsocketSession :=
  { ns with pending := ns.pending ++ [rr] }

/-- Embedding of `WebsocketSession.Close`: closes `closeChan` at most once
(guarded both by the `nil` check and by `closeChanCloser.Do`, which also
nils the field), then closes the connection.  `.error ()` is a Go panic
(close of a closed or nil channel). -/
def WebsocketSession.Close (ns : WebsocketSession) :
    Except Unit (Option WsErr × WebsocketSession) := do
  let ns ←
    match ns.closeChan with
    | none => pure ns
    | some ch =>
      if ns.onceUsed then pure ns
      else do
        let _ ← goChanClose (some ch)
        pure { ns with closeChan := none, onceUsed := true }
  let r := goConnClose ns.conn
  pure (r.1, { ns with conn := r.2 })

/-- Effect of `Close`'s `closeChan`-handling prefix on the session fields,
assuming it does not panic: the channel is closed and nilled the first time
through, untouched afterwards. -/
def closeOnceStep (ns : WebsocketSession) : WebsocketSession :=
  match ns.closeChan with
  | none => ns
  | some _ => if ns.onceUsed then ns else { ns with closeChan := none, onceUsed := true }

/-! ## Definitions for the cmdline `Prepare` validation (C6) -/

/-- Embedding of `websocketListenerCfg`, the cmdline configuration for
`ws-listener`.  The `NodeCost` map is modelled as an association list;
costs are rationals (see the header). -/
structure websocketListenerCfg where
  BindAddr : String
  Port : Int
  Path : String
  TLS : String
  Cost : ℚ
  NodeCost : List (String × ℚ)

/-- Embedding of `websocketListenerCfg.Prepare`: reject non-positive
`Cost`, then the first non-positive per-node cost encountered (Go iterates
the map in unspecified order; the embedded list order is one such order). -/
def websocketListenerCfg.Prepare (cfg : websocketListenerCfg) : Option String :=
  if cfg.Cost ≤ 0 then some "connection cost must be positive"
  else
    match cfg.NodeCost.find? (fun p => decide (p.2 ≤ 0)) with
    | some p => some ("connection cost must be positive for " ++ p.1)
    | none => none

/-- Embedding of `websocketDialerCfg`, the cmdline configuration for
`ws-peer`. -/
structure websocketDialerCfg where
  Address : String
  Redial : Bool
  ExtraHeader : String
  TLS : String
  Cost : ℚ

/-- Embedding of `websocketDialerCfg.Prepare`.  `urlParseOk` is the success
predicate of `net/url.Parse` (standard library, outside this repository),
passed in abstractly. -/
def websocketDialerCfg.Prepare (cfg : websocketDialerCfg)
    (urlParseOk : String → Bool) : Option String :=
  if cfg.Cost ≤ 0 then some "connection cost must be positive"
  else if urlParseOk cfg.Address = false then
    some ("address " ++ cfg.Address ++ " is not a valid URL")
  else if cfg.ExtraHeader ≠ "" ∧ goContains cfg.ExtraHeader ':' = false then
    some "extra header must be in the form key:value"
  else none

/-! ## Definitions for `WebsocketDialer.Start` (C7, C8) -/

/-- Embedding of `WebsocketDialer` from `pkg/backends/websockets.go`.  The
TLS client configuration is opaque to every claim, so its type is a
parameter. -/
structure WebsocketDialer (TLS : Type) where
  address : String
  origin : String
  redial : Bool
  tlscfg : Option TLS
  extraHeader : String

/-- Header list built at the top of the dial closure in
`WebsocketDialer.Start`: `strings.SplitN(b.extraHeader, ":", 2)` indexed at
0 and 1 (`none` models the index-out-of-range panic when part 1 does not
exist), then the origin header. -/
def wsDialHeader (extraHeader : String) (origin : String) :
    Option (List (String × String)) :=
  if extraHeader ≠ "" then
    match (goSplitN2 extraHeader.data ':').get? 0,
          (goSplitN2 extraHeader.data ':').get? 1 with
    | some k, some v => some [(⟨k⟩, ⟨v⟩), ("origin", origin)]
    | _, _ => none
  else some [("origin", origin)]

/-- Result of one run of the dial closure. -/
inductive DialOutcome where
  /-- a Go runtime panic (index out of range) -/
  | panic
  /-- `return nil, err` -/
  | fail (e : String)
  /-- `return ns, nil` with the (non-nil) session `newWebsocketSession`
  returned -/
  | ok (ns : WebsocketSession)
  deriving DecidableEq, Repr

/-- Embedding of the dial closure passed to `dialerSession` by
`WebsocketDialer.Start`.

`dialRes` is the result of `dialer.DialContext` (gorilla, outside this
repository) and `bodyCloseErr` the result of `resp.Body.Close()`.  The Go
statement `if resp.Body.Close(); err != nil { return nil, err }` runs the
body close, discards its result, and re-tests the `err` variable assigned
by `DialContext` — which is `nil` on every path that reaches this
statement. -/
def wsDialFunc {TLS : Type} (b : WebsocketDialer TLS)
    (dialRes : Except String GoConn) (bodyCloseErr : Option String) :
    DialOutcome :=
  match wsDialHeader b.extraHeader b.origin with
  | none => .panic
  | some _header =>
    match dialRes with
    | .error e => .fail e
    | .ok conn =>
      let err : Option String := none
      let _ := bodyCloseErr
      match err with
      | some e => .fail e
      | none => .ok (newWebsocketSession conn (some false))

/-- Argument tuple `WebsocketDialer.Start` hands to the shared
`dialerSession` helper. -/
structure DialerSessionCall (TLS : Type) where
  redial : Bool
  firstDelaySecs : ℚ
  dialFn : Except String GoConn → Option String → DialOutcome

/-- Embedding of `WebsocketDialer.Start`:
`dialerSession(ctx, wg, b.redial, 5*time.Second, closure)`. -/
def WebsocketDialer.Start {TLS : Type} (b : WebsocketDialer TLS) :
    DialerSessionCall TLS :=
  { redial := b.redial, firstDelaySecs := 5, dialFn := wsDialFunc b }

/-- Modelled from the spec: the redial policy of `dialerSession`
(`pkg/backends/utils.go`, not under `src/`) — "for a dialer it emits one
session and, if redial is enabled, re-emits a new session after
reconnection with an exponential-then-capped backoff (5 s initial)".  After
a session is lost, the next dial is scheduled after the initial backoff
delay exactly when redial is enabled. -/
def dialerSessionRedialDelay {TLS : Type} (call : DialerSessionCall TLS) :
    Option ℚ :=
  if call.redial then some call.firstDelaySecs else none

/-! ## Definitions for listener construction and `WSListen.setup` (C9) -/

/-- Embedding of `WebsocketListener` from `pkg/backends/websockets.go`;
`li` (the TCP listener, nil until `Start`) is opaque. -/
structure WebsocketListener (TLS : Type) where
  address : String
  path : String
  tlscfg : Option TLS
  li : Option Unit

/-- Embedding of `NewWebsocketListener(address, tlscfg)`: builds the struct
with path `"/"` and nil `li` — it has no failure path, so the error is
always nil and the pointer always non-nil (`some`). -/
def NewWebsocketListener {TLS : Type} (address : String) (tlscfg : Option TLS) :
    Option (WebsocketListener TLS) × Option String :=
  (some { address := address, path := "/", tlscfg := tlscfg, li := none }, none)

/-- Embedding of `(*WebsocketListener).SetPath`. -/
def WebsocketListener.SetPath {TLS : Type} (b : WebsocketListener TLS)
    (p : String) : WebsocketListener TLS :=
  { b with path := p }

/-- Embedding of the `WSListen` mapstructure config.  `hasTLS` is
`c.TLS != nil`. -/
structure WSListen where
  hasTLS : Bool
  Address : String
  Cost : Option ℚ
  NodeCosts : List (String × ℚ)
  Path : Option String

/-- Outcome of `WSListen.setup`: a nil-dereference panic, an error return,
or success with the backend (possibly nil, mirroring the Go value) and the
validated costs handed to `AddBackend`. -/
inductive SetupResult (TLS : Type) where
  | panic
  | err (e : String)
  | ok (backend : Option (WebsocketListener TLS)) (cost : ℚ)
      (nodeCosts : List (String × ℚ))

/-- Tail of `WSListen.setup` after the `SetPath` block: check the
`NewWebsocketListener` error, validate costs, add the backend.
`validateRes` is the result of `validateListenerCost` and `addRes` that of
`nc.AddBackend` (both outside this file's sources). -/
def wsListenSetupRest {TLS : Type} (c : WSListen)
    (b : Option (WebsocketListener TLS)) (newErr : Option String)
    (validateRes : Except String (ℚ × List (String × ℚ)))
    (addRes : Except String Unit) : SetupResult TLS :=
  match newErr with
  | some e => .err ("could not create ws listener for " ++ c.Address ++
      " from config: " ++ e)
  | none =>
    match validateRes with
    | .error e => .err ("invalid ws listener config for " ++ c.Address ++ ": " ++ e)
    | .ok (cost, nodeCosts) =>
      match addRes with
      | .error e => .err ("error creating backend for ws listener " ++
          c.Address ++ ": " ++ e)
      | .ok _ => .ok b cost nodeCosts

/-- Embedding of `WSListen.setup`: TLS config conversion (early return on
error), then `b, err := NewWebsocketListener(...)`, then — **before** `err`
is checked — `if c.Path != nil { b.SetPath(*c.Path) }`, which dereferences
`b`. -/
def WSListen.setup {TLS : Type} (c : WSListen) (tlsRes : Except String TLS)
    (validateRes : Except String (ℚ × List (String × ℚ)))
    (addRes : Except String Unit) : SetupResult TLS :=
  match (if c.hasTLS then
          match tlsRes with
          | .error e => .error ("could not create tls config for ws listener " ++
              c.Address ++ ": " ++ e)
          | .ok t => .ok (some t)
        else .ok none : Except String (Option TLS)) with
  | .error e => .err e
  | .ok tlsConf =>
    let r := NewWebsocketListener c.Address tlsConf
    match c.Path with
    | some p =>
      match r.1 with
      | none => .panic
      | some b => wsListenSetupRest c (some (b.SetPath p)) r.2 validateRes addRes
    | none => wsListenSetupRest c r.1 r.2 validateRes addRes

/-! ## Definitions for the extra-header handling of `WSDial.setup` (C10) -/

/-- Embedding of the extra-header block at the top of `WSDial.setup`:
nil means no header (empty string passed on); a present header must be
non-empty and contain a colon or the whole setup fails with
`ErrInvalidHTTPHeader`. -/
def wsDialSetupExtraHeader (c : Option String) (address : String) :
    Except String String :=
  match c with
  | none => .ok ""
  | some h =>
    if h = "" ∨ goContains h ':' = false then
      .error ("invalid ws parameters for ws listener " ++ address ++
        ": invalid http header")
    else .ok h

/-! ## Theorems: claims C1 and C2 -/

/-- C1: With an empty configured ID, `nodeCfg.Init` derives the node ID from
the host name: if the lower-cased host name is neither `"localhost"` nor
prefixed by `"localhost."` (and the external workceptor/controlsvc steps
succeed), `Init` succeeds and the netceptor instance is constructed with the
host name as its node ID; if the host name is `"localhost"` or begins with
`"localhost."`, `Init` returns an error and no instance is created. -/
theorem nodeCfg_Init_defaults_id_to_hostname (cfg : nodeCfg) (host : String)
    (hID : cfg.ID = "") :
    ((goToLower host ≠ "localhost" ∧ goStartsWith (goToLower host) "localhost." = false) →
      ∃ inst, nodeCfg.Init cfg (.ok host) (.ok ()) = (.ok (), some inst) ∧
        inst.nodeID = host) ∧
    ((goToLower host = "localhost" ∨ goStartsWith (goToLower host) "localhost." = true) →
      nodeCfg.Init cfg (.ok host) (.ok ()) =
        (.error "no node ID specified and local host name is localhost", none)) := by
  constructor
  · rintro ⟨h1, h2⟩
    refine ⟨⟨host, if cfg.AllowedPeers ≠ "" then
        (goSplitComma cfg.AllowedPeers).map String.trim else []⟩, ?_, rfl⟩
    simp [nodeCfg.Init, hID, h1, h2]
  · intro h
    have h' : (goToLower host = "localhost" ∨ goStartsWith (goToLower host) "localhost." = true) :=
      h
    simp only [nodeCfg.Init, hID, if_pos rfl]
    rcases h' with h' | h' <;> simp [h']

/-- Witness for `nodeCfg_Init_defaults_id_to_hostname` at concrete inputs:
host name `"examplehost"` succeeds with that node ID, host name
`"localhost"` is rejected. -/
theorem nodeCfg_Init_defaults_id_to_hostname_witness :
    (∃ inst, nodeCfg.Init { ID := "", AllowedPeers := "", DataDir := "" }
        (.ok "examplehost") (.ok ()) = (.ok (), some inst) ∧
        inst.nodeID = "examplehost") ∧
    nodeCfg.Init { ID := "", AllowedPeers := "", DataDir := "" }
        (.ok "localhost") (.ok ()) =
      (.error "no node ID specified and local host name is localhost", none) :=
  ⟨(nodeCfg_Init_defaults_id_to_hostname _ "examplehost" rfl).1 ⟨by decide, by decide⟩,
   (nodeCfg_Init_defaults_id_to_hostname _ "localhost" rfl).2 (Or.inl (by decide))⟩

/-- C2: Any configuration whose ID compares case-insensitively equal to
`"localhost"` is rejected by `nodeCfg.Init` with the reserved-ID error, and
no netceptor instance is created, regardless of the host name lookup and of
the external construction steps. -/
theorem nodeCfg_Init_rejects_reserved_localhost (cfg : nodeCfg)
    (hostRes : Except String String) (extRes : Except String Unit)
    (h : goToLower cfg.ID = "localhost") :
    nodeCfg.Init cfg hostRes extRes =
      (.error "node ID \"localhost\" is reserved", none) := by
  have hne : cfg.ID ≠ "" := by
    intro he
    rw [he] at h
    exact absurd h (by decide)
  simp [nodeCfg.Init, hne, h]

/-- Witness for `nodeCfg_Init_rejects_reserved_localhost`: the mixed-case ID
`"LocalHost"` is rejected. -/
theorem nodeCfg_Init_rejects_reserved_localhost_witness :
    nodeCfg.Init { ID := "LocalHost", AllowedPeers := "", DataDir := "" }
        (.ok "otherhost") (.ok ()) =
      (.error "node ID \"localhost\" is reserved", none) :=
  nodeCfg_Init_rejects_reserved_localhost _ _ _ (by decide)

/-! ## Theorems: claim C3 -/

/-- C3: If all backends have terminated before the 100 ms grace window
elapses, the process exits with code 1 — logging the all-backends-failed
error when the backend count is positive and the no-backends warning when it
is zero; if the backends are still running when the window elapses, the
process stays up and waits for the netceptor to finish, producing no exit
code at the select. -/
theorem main_startup_grace_window (backendDoneAtMs : Option Nat)
    (backendCount : Nat) :
    (∀ t, backendDoneAtMs = some t → t < startupGraceMs →
      ((0 < backendCount →
          mainStartupSelect backendDoneAtMs backendCount = .exitAllBackendsFailed) ∧
       (backendCount = 0 →
          mainStartupSelect backendDoneAtMs backendCount = .exitNothingToDo) ∧
       (mainStartupSelect backendDoneAtMs backendCount).exitCode = some 1)) ∧
    ((backendDoneAtMs = none ∨ ∀ t, backendDoneAtMs = some t → startupGraceMs ≤ t) →
      mainStartupSelect backendDoneAtMs backendCount = .stayUpUntilNetceptorDone ∧
      (mainStartupSelect backendDoneAtMs backendCount).exitCode = none) := by
  constructor
  · rintro t rfl ht
    have hlt : decide (t < startupGraceMs) = true := by
      simpa using ht
    refine ⟨?_, ?_, ?_⟩
    · intro hc
      simp [mainStartupSelect, hlt, hc]
    · intro hc
      simp [mainStartupSelect, hlt, hc]
    · rcases Nat.eq_zero_or_pos backendCount with hc | hc
      · simp [mainStartupSelect, hlt, hc, StartupOutcome.exitCode]
      · simp [mainStartupSelect, hlt, hc, StartupOutcome.exitCode]
  · intro h
    rcases h with h | h
    · subst h
      simp [mainStartupSelect, StartupOutcome.exitCode]
    · cases backendDoneAtMs with
      | none => simp [mainStartupSelect, StartupOutcome.exitCode]
      | some t =>
        have := h t rfl
        have hlt : decide (t < startupGraceMs) = false := by
          simp
          omega
        simp [mainStartupSelect, hlt, StartupOutcome.exitCode]

/-- Witness for `main_startup_grace_window`: backends all dead at 0 ms with
one backend configured exits with all-backends-failed; still running at the
window with any count stays up. -/
theorem main_startup_grace_window_witness :
    mainStartupSelect (some 0) 1 = .exitAllBackendsFailed ∧
    mainStartupSelect (some 0) 0 = .exitNothingToDo ∧
    mainStartupSelect none 3 = .stayUpUntilNetceptorDone :=
  ⟨((main_startup_grace_window (some 0) 1).1 0 rfl (by decide)).1 (by decide),
   ((main_startup_grace_window (some 0) 0).1 0 rfl (by decide)).2.1 rfl,
   ((main_startup_grace_window none 3).2 (Or.inl rfl)).1⟩

/-! ## Theorems: claims C4 and C5 -/

theorem closeOnceStep_conn (ns : WebsocketSession) :
    (closeOnceStep ns).conn = ns.conn := by
  obtain ⟨c, pend, cc, ou⟩ := ns
  cases cc with
  | none => rfl
  | some ch => cases ou <;> rfl

theorem closeOnceStep_pending (ns : WebsocketSession) :
    (closeOnceStep ns).pending = ns.pending := by
  obtain ⟨c, pend, cc, ou⟩ := ns
  cases cc with
  | none => rfl
  | some ch => cases ou <;> rfl

theorem closeOnceStep_chan_invariant (ns : WebsocketSession) (ch : Bool)
    (h : (closeOnceStep ns).closeChan = some ch) :
    (closeOnceStep ns).onceUsed = true := by
  obtain ⟨c, pend, cc, ou⟩ := ns
  cases cc with
  | none => exact absurd h (by simp [closeOnceStep])
  | some ch' =>
    cases ou with
    | false => exact absurd h (by simp [closeOnceStep])
    | true => rfl

theorem goConnClose_of_closed (c : GoConn) (h : c.closed = true) :
    goConnClose c = (some .closed, c) := by
  simp [goConnClose, h]

theorem goConnClose_closed (c : GoConn) : ((goConnClose c).2).closed = true := by
  obtain ⟨b⟩ := c
  cases b <;> rfl

/-- Characterisation of `Close`: it never panics and behaves as
`closeOnceStep` followed by the connection close, provided the session is
well formed (a session whose channel is already closed has consumed its
`sync.Once`, which is what the code guarantees: the only close of the
channel happens inside the `Do`). -/
theorem WebsocketSession.Close_eq (ns : WebsocketSession)
    (hwf : ns.closeChan = some true → ns.onceUsed = true) :
    ns.Close = .ok ((goConnClose ns.conn).1,
      { closeOnceStep ns with conn := (goConnClose ns.conn).2 }) := by
  obtain ⟨c, pend, cc, ou⟩ := ns
  cases cc with
  | none => rfl
  | some ch =>
    cases ou with
    | true => rfl
    | false =>
      cases ch with
      | false => rfl
      | true => exact absurd (hwf rfl) (by simp)

theorem closeOnceStep_idem (ns : WebsocketSession) (c : GoConn) :
    closeOnceStep { closeOnceStep ns with conn := c } =
      { closeOnceStep ns with conn := c } := by
  obtain ⟨c0, pend, cc, ou⟩ := ns
  cases cc with
  | none => rfl
  | some ch => cases ou <;> rfl

/-- Closing again a session over a closed connection whose `closeChan`
prefix is a no-op neither panics nor changes state, and returns the
connection-closed error. -/
theorem WebsocketSession.Close_of_closed (ms : WebsocketSession)
    (hconn : ms.conn.closed = true) (hstep : closeOnceStep ms = ms) :
    ms.Close = .ok (some WsErr.closed, ms) := by
  have hwf : ms.closeChan = some true → ms.onceUsed = true := by
    intro hc
    by_contra hou
    simp only [Bool.not_eq_true] at hou
    have hnone : (closeOnceStep ms).closeChan = none := by
      simp [closeOnceStep, hc, hou]
    rw [hstep, hc] at hnone
    cases hnone
  rw [WebsocketSession.Close_eq ms hwf, goConnClose_of_closed ms.conn hconn, hstep]

/-- C4: `Recv` returns the timeout error when no frame becomes ready before
the timeout elapses, and a timed-out `Recv` leaves the session state — in
particular the queue of results the channelizer stands ready to deliver —
unchanged, so a frame that arrives afterwards is returned by a subsequent
`Recv`. -/
theorem WebsocketSession_Recv_timeout_does_not_consume (ns : WebsocketSession)
    (rr : recvResult) (hp : ns.pending = []) :
    ns.Recv false = ((none, some WsErr.timeout), ns) ∧
    (((ns.Recv false).2.deliver rr).Recv true).1 = (some rr.data, rr.err) := by
  constructor
  · cases h : ns.pending <;> simp [WebsocketSession.Recv]
  · simp [WebsocketSession.Recv, WebsocketSession.deliver, hp]

/-- Witness for `WebsocketSession_Recv_timeout_does_not_consume` on a fresh
session over an open connection, with the frame `[1, 2, 3]` arriving after
the timed-out call. -/
theorem WebsocketSession_Recv_timeout_does_not_consume_witness :
    (newWebsocketSession { closed := false } none).Recv false =
      ((none, some WsErr.timeout), newWebsocketSession { closed := false } none) ∧
    ((((newWebsocketSession { closed := false } none).Recv false).2.deliver
        { data := [1, 2, 3], err := none }).Recv true).1 =
      (some [1, 2, 3], none) :=
  WebsocketSession_Recv_timeout_does_not_consume
    (newWebsocketSession { closed := false } none) { data := [1, 2, 3], err := none } rfl

/-- C5 (amended): `Close` never panics and a second `Close` is idempotent:
it panics neither time (in particular the channel close is protected by the
`sync.Once` and the `nil` reset) and leaves the session state exactly as the
first `Close` left it.  After `Close`, `Send` returns the connection-closed
error, and `Recv` returns it once the channelizer's queue of already-read
frames is empty.  The unqualified claim — that *every* post-`Close` `Recv`
returns the closed result — is refuted by
`WebsocketSession_Close_then_Recv_frame_counterexample` below: a frame the
channelizer read before `Close` and still holds on `recvChan` is returned
first, with a nil error.  Well-formedness hypothesis: a session whose
`closeChan` is already closed has consumed its `sync.Once` (true of every
session the code constructs). -/
theorem WebsocketSession_Close_idempotent (ns : WebsocketSession)
    (hwf : ns.closeChan = some true → ns.onceUsed = true) :
    ns.Close ≠ .error () ∧
    ∀ e₁ ns₁, ns.Close = .ok (e₁, ns₁) →
      ns₁.Close = .ok (some WsErr.closed, ns₁) ∧
      (∀ data, ns₁.Send data = some WsErr.closed) ∧
      (ns.pending = [] → (ns₁.Recv true).1 = (none, some WsErr.closed)) := by
  refine ⟨by rw [WebsocketSession.Close_eq ns hwf]; simp, ?_⟩
  intro e₁ ns₁ h
  rw [WebsocketSession.Close_eq ns hwf] at h
  injection h with h'
  injection h' with he hn
  subst he hn
  refine ⟨?_, ?_, ?_⟩
  · exact WebsocketSession.Close_of_closed _ (goConnClose_closed ns.conn)
      (closeOnceStep_idem ns _)
  · intro data
    simp [WebsocketSession.Send, goWriteMessage, goConnClose_closed]
  · intro hp
    simp [WebsocketSession.Recv, closeOnceStep_pending, hp, goConnClose_closed]

/-- Witness for `WebsocketSession_Close_idempotent`: a dialer-created
session (open connection, open close channel, `Once` unused). -/
theorem WebsocketSession_Close_idempotent_witness :
    (newWebsocketSession { closed := false } (some false)).Close =
      .ok (none, { conn := { closed := true }, pending := [],
                   closeChan := none, onceUsed := true }) ∧
    ({ conn := { closed := true }, pending := [], closeChan := none,
       onceUsed := true } : WebsocketSession).Close =
      .ok (some WsErr.closed, { conn := { closed := true }, pending := [],
                                closeChan := none, onceUsed := true }) ∧
    ({ conn := { closed := true }, pending := [], closeChan := none,
       onceUsed := true } : WebsocketSession).Send [9] = some WsErr.closed ∧
    (({ conn := { closed := true }, pending := [], closeChan := none,
        onceUsed := true } : WebsocketSession).Recv true).1 =
      (none, some WsErr.closed) := by
  have h := (WebsocketSession_Close_idempotent
    (newWebsocketSession { closed := false } (some false)) (by decide)).2
    none { conn := { closed := true }, pending := [], closeChan := none,
           onceUsed := true } (by decide)
  exact ⟨by decide, h.1, h.2.1 [9], h.2.2 rfl⟩

/-- C5 counterexample: the unqualified claim "after Close has been called,
Recv returns the Closed result" is false.  Start from a session whose
channelizer has read the frame `[7]` and is blocked handing it over
(`pending = [⟨[7], none⟩]`); `Close` succeeds and leaves that frame queued,
and the next `Recv` returns `(some [7], nil)` — the data frame, not the
closed error. -/
theorem WebsocketSession_Close_then_Recv_frame_counterexample :
    ({ conn := { closed := false }, pending := [{ data := [7], err := none }],
       closeChan := some false, onceUsed := false } : WebsocketSession).Close =
      .ok (none, { conn := { closed := true },
                   pending := [{ data := [7], err := none }],
                   closeChan := none, onceUsed := true }) ∧
    (({ conn := { closed := true }, pending := [{ data := [7], err := none }],
        closeChan := none, onceUsed := true } : WebsocketSession).Recv true).1 =
      (some [7], none) ∧
    (({ conn := { closed := true }, pending := [{ data := [7], err := none }],
        closeChan := none, onceUsed := true } : WebsocketSession).Recv true).1 ≠
      (none, some WsErr.closed) := by
  refine ⟨by decide, by decide, by decide⟩

/-! ## Theorems: claim C6 -/

/-- C6: a listener config fails `Prepare` exactly when its cost is
non-positive or some per-node cost is non-positive; a dialer config fails
`Prepare` exactly when its cost is non-positive, its address does not parse
as a URL, or a non-empty extra header lacks a colon. -/
theorem websocket_Prepare_rejects_invalid_configs :
    (∀ cfg : websocketListenerCfg,
      cfg.Prepare.isSome ↔ (cfg.Cost ≤ 0 ∨ ∃ p ∈ cfg.NodeCost, p.2 ≤ 0)) ∧
    (∀ (cfg : websocketDialerCfg) (urlParseOk : String → Bool),
      (cfg.Prepare urlParseOk).isSome ↔
        (cfg.Cost ≤ 0 ∨ urlParseOk cfg.Address = false ∨
          (cfg.ExtraHeader ≠ "" ∧ goContains cfg.ExtraHeader ':' = false))) := by
  constructor
  · intro cfg
    by_cases hc : cfg.Cost ≤ 0
    · simp [websocketListenerCfg.Prepare, hc]
    · simp only [websocketListenerCfg.Prepare, if_neg hc]
      rcases hf : cfg.NodeCost.find? (fun p => decide (p.2 ≤ 0)) with - | p
      · rw [hf]
        rw [List.find?_eq_none] at hf
        simp only [Option.isSome_none, Bool.false_eq_true, false_iff]
        rintro (h | ⟨p, hp, hple⟩)
        · exact hc h
        · exact absurd hple (by simpa using hf p hp)
      · rw [hf]
        simp only [Option.isSome_some, true_iff]
        exact Or.inr ⟨p, List.mem_of_find?_eq_some hf, by simpa using List.find?_some hf⟩
  · intro cfg urlParseOk
    by_cases h1 : cfg.Cost ≤ 0
    · simp [websocketDialerCfg.Prepare, h1]
    · by_cases h2 : urlParseOk cfg.Address = false
      · simp [websocketDialerCfg.Prepare, h1, h2]
      · by_cases h3 : cfg.ExtraHeader ≠ "" ∧ goContains cfg.ExtraHeader ':' = false
        · simp [websocketDialerCfg.Prepare, h1, h2, h3]
        · simp [websocketDialerCfg.Prepare, h1, h2, h3]

/-! ## Theorems: claims C7 and C8 -/

/-- C7: `Start` passes the dialer's configured redial flag, an initial
backoff delay of exactly 5 seconds, and its dial closure to the shared
dialer-session helper; consequently, when redial is enabled, a lost
connection is redialed starting from a 5-second backoff. -/
theorem WebsocketDialer_Start_redial_backoff {TLS : Type}
    (b : WebsocketDialer TLS) :
    b.Start.redial = b.redial ∧ b.Start.firstDelaySecs = 5 ∧
    b.Start.dialFn = wsDialFunc b ∧
    (b.redial = true → dialerSessionRedialDelay b.Start = some 5) := by
  refine ⟨rfl, rfl, rfl, ?_⟩
  intro h
  simp [dialerSessionRedialDelay, WebsocketDialer.Start, h]

/-- Witness for `WebsocketDialer_Start_redial_backoff` on a concrete
redial-enabled dialer. -/
theorem WebsocketDialer_Start_redial_backoff_witness :
    dialerSessionRedialDelay
      (WebsocketDialer.Start
        { address := "wss://example:443", origin := "https://example:443",
          redial := true, tlscfg := (none : Option Unit),
          extraHeader := "" }) = some 5 :=
  (WebsocketDialer_Start_redial_backoff _).2.2.2 rfl

/-- C8: once `DialContext` has returned with a nil error, the re-test of
that same error after `resp.Body.Close()` can never fire — whatever the
body close returned — so every successful dial yields the (non-nil) fresh
session. -/
theorem wsDialFunc_success_yields_session {TLS : Type}
    (b : WebsocketDialer TLS) (conn : GoConn) (bodyCloseErr : Option String)
    (hhdr : wsDialHeader b.extraHeader b.origin ≠ none) :
    wsDialFunc b (.ok conn) bodyCloseErr =
      .ok (newWebsocketSession conn (some false)) := by
  obtain ⟨hdr, hh⟩ := Option.ne_none_iff_exists'.mp hhdr
  simp [wsDialFunc, hh]

/-- Witness for `wsDialFunc_success_yields_session`: empty extra header,
open connection, and a failing body close still yield the session. -/
theorem wsDialFunc_success_yields_session_witness :
    wsDialFunc
      ({ address := "ws://example:80", origin := "http://example:80",
         redial := false, tlscfg := (none : Option Unit), extraHeader := "" })
      (.ok { closed := false }) (some "read error") =
      .ok (newWebsocketSession { closed := false } (some false)) :=
  wsDialFunc_success_yields_session _ _ _ (by decide)

/-! ## Theorems: claim C9 -/

theorem wsListenSetupRest_ne_panic {TLS : Type} (c : WSListen)
    (b : Option (WebsocketListener TLS)) (newErr : Option String)
    (validateRes : Except String (ℚ × List (String × ℚ)))
    (addRes : Except String Unit) :
    wsListenSetupRest c b newErr validateRes addRes ≠ .panic := by
  rcases newErr with - | e
  · rcases validateRes with e | ⟨cost, nodeCosts⟩
    · simp [wsListenSetupRest]
    · rcases addRes with e | u <;> simp [wsListenSetupRest]
  · simp [wsListenSetupRest]

/-- C9: `NewWebsocketListener` returns, for every address and TLS config, a
non-nil listener whose path is `"/"` together with a nil error; therefore
the `b.SetPath(*c.Path)` call in `WSListen.setup`, although it precedes the
error check, never dereferences a nil listener — `setup` never panics. -/
theorem NewWebsocketListener_total_and_setup_safe {TLS : Type} :
    (∀ (address : String) (tlscfg : Option TLS),
      NewWebsocketListener address tlscfg =
        (some { address := address, path := "/", tlscfg := tlscfg, li := none },
         none)) ∧
    (∀ (c : WSListen) (tlsRes : Except String TLS)
       (validateRes : Except String (ℚ × List (String × ℚ)))
       (addRes : Except String Unit),
      c.setup tlsRes validateRes addRes ≠ .panic) := by
  refine ⟨fun _ _ => rfl, ?_⟩
  intro c tlsRes validateRes addRes
  rcases hc : c.hasTLS with - | - <;> rcases hp : c.Path with - | p <;>
    rcases tlsRes with e | t <;>
      simp [WSListen.setup, hc, hp, NewWebsocketListener, wsListenSetupRest_ne_panic]

/-! ## Theorems: claim C10 -/

/-- Exactly two parts come back from `strings.SplitN(·, ·, 2)` when the
separator occurs in the list. -/
theorem goSplitN2_length_of_contains (l : List Char) (c : Char)
    (h : l.contains c = true) : (goSplitN2 l c).length = 2 := by
  induction l with
  | nil => simp at h
  | cons x xs ih =>
    by_cases hx : x = c
    · simp [goSplitN2, hx]
    · have hxs : xs.contains c = true := by
        have hmem : c ∈ x :: xs := by simpa using h
        rcases List.mem_cons.mp hmem with hcx | hcx
        · exact absurd hcx.symm hx
        · simpa using hcx
      have ihl := ih hxs
      simp only [goSplitN2, if_neg hx]
      rcases hcase : goSplitN2 xs c with - | ⟨h0, t⟩
      · rw [hcase] at ihl
        simp at ihl
      · rw [hcase] at ihl
        simpa using ihl

/-- C10: a non-empty extra header containing a colon splits into exactly two
parts, so indexing parts 0 and 1 in the dial closure cannot go out of
bounds (the header build never hits the panic case); and both
`websocketDialerCfg.Prepare` and `WSDial.setup` let an extra header through
only when it is empty or contains a colon. -/
theorem websocket_extraHeader_split_safe :
    (∀ s : String, s ≠ "" → goContains s ':' = true →
      (goSplitN2 s.data ':').length = 2 ∧
      ∀ origin, wsDialHeader s origin ≠ none) ∧
    (∀ (cfg : websocketDialerCfg) (urlParseOk : String → Bool),
      cfg.Prepare urlParseOk = none →
      cfg.ExtraHeader = "" ∨ goContains cfg.ExtraHeader ':' = true) ∧
    (∀ (ehCfg : Option String) (address eh : String),
      wsDialSetupExtraHeader ehCfg address = .ok eh →
      eh = "" ∨ goContains eh ':' = true) := by
  refine ⟨?_, ?_, ?_⟩
  · intro s hs hc
    have hlen : (goSplitN2 s.data ':').length = 2 :=
      goSplitN2_length_of_contains s.data ':' hc
    refine ⟨hlen, ?_⟩
    intro origin
    obtain ⟨a, b, hab⟩ := List.length_eq_two.mp hlen
    simp [wsDialHeader, hs, hab]
  · intro cfg urlParseOk hnone
    by_cases h1 : cfg.Cost ≤ 0
    · simp [websocketDialerCfg.Prepare, h1] at hnone
    · by_cases h2 : urlParseOk cfg.Address = false
      · simp [websocketDialerCfg.Prepare, h1, h2] at hnone
      · by_cases h3 : cfg.ExtraHeader ≠ "" ∧ goContains cfg.ExtraHeader ':' = false
        · simp [websocketDialerCfg.Prepare, h1, h2, h3] at hnone
        · rcases not_and_or.mp h3 with h | h
          · left
            simpa using h
          · right
            simpa using h
  · intro ehCfg address eh hok
    rcases ehCfg with - | h
    · left
      cases hok
      rfl
    · by_cases hbad : h = "" ∨ goContains h ':' = false
      · simp [wsDialSetupExtraHeader, hbad] at hok
      · have : eh = h := by
          simp only [wsDialSetupExtraHeader, if_neg hbad] at hok
          cases hok
          rfl
        subst this
        rcases not_or.mp hbad with ⟨-, hco⟩
        right
        simpa using hco

/-- Witness for `websocket_extraHeader_split_safe`: the header
`"X-Receptor: yes"` splits into its key and value. -/
theorem websocket_extraHeader_split_safe_witness :
    (goSplitN2 "X-Receptor: yes".data ':').length = 2 ∧
    wsDialHeader "X-Receptor: yes" "https://example:443" ≠ none := by
  have h := websocket_extraHeader_split_safe.1 "X-Receptor: yes"
    (by decide) (by decide)
  exact ⟨h.1, h.2 "https://example:443"⟩
